import Mathlib

/-!
# vigir_pluginlib: the Plugin base class

A shallow embedding of `vigir_pluginlib/src/plugin.cpp` and
`vigir_pluginlib/include/vigir_pluginlib/plugin.h`.

* `demangle` is the free function of plugin.cpp, with both preprocessor
  branches (`__GNUG__` defined or not).
* A `Plugin` object is its three data members (`nh_`, `params_`,
  `description_`) together with the class the object was created as (what
  `typeid(*this)` reports).  Member functions are functions on that state;
  the two `const` accessors that write through `const_cast` return the new
  state next to their result.
* Code that lives outside the repository (the C++ ABI demangler, the ROS node
  handle, the `vigir_generic_params` parameter set) is taken as a parameter.
-/

namespace vigir_pluginlib

/-! ## demangle -/

/-- Outcome of `abi::__cxa_demangle(name, NULL, NULL, &status)`: the value written
to `status` and the contents of the returned buffer.  The ABI returns a buffer
exactly when it writes status 0, and plugin.cpp reads the buffer only in that
case, so `buf` is meaningful only when `status = 0`. -/
structure CxaResult where
  status : Int
  buf : String

/-- The two preprocessor branches of plugin.cpp: a GNU compiler, which brings
`abi::__cxa_demangle`, or any other compiler, which has no demangler. -/
inductive Compiler where
  | gnug (cxa_demangle : String → CxaResult)
  | other

/-- Embeds `std::string demangle(const char* name)`, plugin.cpp lines 7 to 34:
`return (status==0) ? res.get() : name;` under `__GNUG__`, `return name;`
otherwise. -/
def demangle (c : Compiler) (name : String) : String :=
  match c with
  | .gnug cxa_demangle =>
    let r := cxa_demangle name
    if r.status = 0 then r.buf else name
  | .other => name

/-! ## Data model -/

/-- Modelled from the spec: the message type `msgs::PluginDescription` of the
package vigir_pluginlib_msgs, whose declaration is not among the sources.  The
spec lists its fields as name, type_class, type_class_package,
base_class_package, base_class and params; plugin.cpp reads and writes the five
strings through their `.data` member, which is flattened here.  `Msg` is the
type of the parameter-set message held in `params`. -/
structure PluginDescription (Msg : Type) where
  name : String
  type_class : String
  type_class_package : String
  base_class_package : String
  base_class : String
  params : Msg

/-- What the code uses from outside the repository.  `Msg` is the parameter-set
message, `PSet` is `vigir_generic_params::ParameterSet`, `NH` is
`ros::NodeHandle`. -/
structure Externals (Msg PSet NH : Type) where
  /-- The compiler branch that `demangle` was built with. -/
  compiler : Compiler
  /-- The value of `typeid(Plugin).name()`. -/
  typeidPlugin : String
  /-- The default-constructed parameter-set message. -/
  msgDefault : Msg
  /-- The value of `vigir_generic_params::ParameterSet()`. -/
  paramsDefault : PSet
  /-- The converting constructor `vigir_generic_params::ParameterSet(msg)`. -/
  paramsOfMsg : Msg → PSet
  /-- The value of `ros::NodeHandle()`. -/
  nhDefault : NH

/-- A class of plugin objects, as far as plugin.h depends on it: the name its
`typeid` reports, and the result of its own static `_typeClass<T>()` when the
class declares one ("Override _typeClass() function to use custom type ids for
derived data types!", plugin.h lines 89 to 94); `none` when the class inherits
`Plugin::_typeClass`. -/
structure ClassInfo where
  typeidName : String
  ownTypeClass : Option String

variable {Msg PSet NH : Type}

/-- A default-constructed `msgs::PluginDescription`: empty strings and a
default parameter-set message. -/
def PluginDescription.init (E : Externals Msg PSet NH) : PluginDescription Msg :=
  { name := "", type_class := "", type_class_package := "",
    base_class_package := "", base_class := "", params := E.msgDefault }

/-- A `Plugin` object: the most-derived class it was created as, and the data
members `nh_`, `params_` and `description_` of plugin.h lines 175 to 183. -/
structure Plugin (Msg PSet NH : Type) where
  dynClass : ClassInfo
  nh_ : NH
  params_ : PSet
  description_ : PluginDescription Msg

/-! ## Member functions -/

/-- Embeds `Plugin::_typeClass<T>(T* t = nullptr)`, plugin.h line 120:
`demangle(t ? typeid(*t).name() : typeid(T).name())`.  `T` is given by its
`typeid` name; `Plugin` has virtual members, so `typeid(*t)` is the name of the
most-derived class of the object. -/
def Plugin._typeClass (E : Externals Msg PSet NH) (T : String)
    (t : Option (Plugin Msg PSet NH)) : String :=
  demangle E.compiler
    (match t with
     | some o => o.dynClass.typeidName
     | none => T)

/-- Embeds `Plugin::setNodehandle`, plugin.cpp lines 103 to 106. -/
def Plugin.setNodehandle (self : Plugin Msg PSet NH) (nh : NH) : Plugin Msg PSet NH :=
  { self with nh_ := nh }

/-- Embeds `Plugin::setParams`, plugin.cpp lines 108 to 111. -/
def Plugin.setParams (self : Plugin Msg PSet NH) (params : PSet) : Plugin Msg PSet NH :=
  { self with params_ := params }

/-- Embeds `Plugin::updateDescription`, plugin.cpp lines 97 to 101:
`description_ = description;` then
`setParams(vigir_generic_params::ParameterSet(description_.params));`. -/
def Plugin.updateDescription (E : Externals Msg PSet NH) (self : Plugin Msg PSet NH)
    (description : PluginDescription Msg) : Plugin Msg PSet NH :=
  let self1 : Plugin Msg PSet NH := { self with description_ := description }
  self1.setParams (E.paramsOfMsg self1.description_.params)

/-- Embeds the constructor `Plugin::Plugin`, plugin.cpp lines 36 to 43, for an
object created as class `cls`.  The body fills a local `description` with the
four arguments and ends; the members `nh_`, `params_` and `description_` are
default-constructed and the body does not assign them. -/
def Plugin.construct (E : Externals Msg PSet NH) (cls : ClassInfo)
    (name type_class_package base_class_package base_class : String) :
    Plugin Msg PSet NH :=
  let members : Plugin Msg PSet NH :=
    { dynClass := cls, nh_ := E.nhDefault, params_ := E.paramsDefault,
      description_ := PluginDescription.init E }
  let description : PluginDescription Msg := PluginDescription.init E
  let description := { description with name := name }
  let description := { description with type_class_package := type_class_package }
  let description := { description with base_class_package := base_class_package }
  let description := { description with base_class := base_class }
  let _local := description
  members

/-- Embeds `Plugin::setup`, plugin.cpp lines 50 to 55: `setNodehandle(nh);
return true;`.  The parameter set is an unnamed argument. -/
def Plugin.setup (self : Plugin Msg PSet NH) (nh : NH) (_params : PSet) :
    Bool × Plugin Msg PSet NH :=
  (true, self.setNodehandle nh)

/-- Embeds the base `Plugin::loadParams`, plugin.h line 72: `{ return true; }`. -/
def Plugin.loadParams (self : Plugin Msg PSet NH) (_params : PSet) :
    Bool × Plugin Msg PSet NH :=
  (true, self)

/-- Embeds the base `Plugin::initialize`, plugin.h line 79: `{ return true; }`. -/
def Plugin.initialize (self : Plugin Msg PSet NH) (_params : PSet) :
    Bool × Plugin Msg PSet NH :=
  (true, self)

/-- Embeds the base `Plugin::postInitialize`, plugin.h line 87: `{ return true; }`. -/
def Plugin.postInitialize (self : Plugin Msg PSet NH) (_params : PSet) :
    Bool × Plugin Msg PSet NH :=
  (true, self)

/-- Embeds `Plugin::getDescription`, plugin.cpp lines 57 to 65.  When
`description_.type_class.data.empty()`, the function (through `const_cast`)
assigns `_typeClass(this)` to it and calls `updateDescription(description_)`;
then `return description_;`.  `_typeClass(this)` stands inside a member of
`Plugin`, so it is `Plugin::_typeClass` with `T` the class `Plugin`. -/
def Plugin.getDescription (E : Externals Msg PSet NH) (self : Plugin Msg PSet NH) :
    PluginDescription Msg × Plugin Msg PSet NH :=
  if self.description_.type_class = "" then
    let self1 : Plugin Msg PSet NH :=
      { self with description_ :=
          { self.description_ with
              type_class := Plugin._typeClass E E.typeidPlugin (some self) } }
    let self2 := self1.updateDescription E self1.description_
    (self2.description_, self2)
  else (self.description_, self)

/-- Embeds `Plugin::getName`, plugin.cpp lines 67 to 70. -/
def Plugin.getName (self : Plugin Msg PSet NH) : String :=
  self.description_.name

/-- Embeds `Plugin::getTypeClassPackage`, plugin.cpp lines 72 to 75. -/
def Plugin.getTypeClassPackage (self : Plugin Msg PSet NH) : String :=
  self.description_.type_class_package

/-- Embeds the member `Plugin::getTypeClass`, plugin.cpp lines 77 to 85.  When
`description_.type_class.data.empty()`, the function (through `const_cast`)
assigns `_typeClass(this)` to it and calls `updateDescription(description_)`;
then `return description_.type_class.data;`. -/
def Plugin.getTypeClass (E : Externals Msg PSet NH) (self : Plugin Msg PSet NH) :
    String × Plugin Msg PSet NH :=
  if self.description_.type_class = "" then
    let self1 : Plugin Msg PSet NH :=
      { self with description_ :=
          { self.description_ with
              type_class := Plugin._typeClass E E.typeidPlugin (some self) } }
    let self2 := self1.updateDescription E self1.description_
    (self2.description_.type_class, self2)
  else (self.description_.type_class, self)

/-- Embeds `Plugin::getBaseClassPackage`, plugin.cpp lines 87 to 90. -/
def Plugin.getBaseClassPackage (self : Plugin Msg PSet NH) : String :=
  self.description_.base_class_package

/-- Embeds `Plugin::getBaseClass`, plugin.cpp lines 92 to 95. -/
def Plugin.getBaseClass (self : Plugin Msg PSet NH) : String :=
  self.description_.base_class

/-- Embeds `Plugin::getParams`, plugin.h line 132: `return params_;`. -/
def Plugin.getParams (self : Plugin Msg PSet NH) : PSet :=
  self.params_

/-! ## Sequences of operations -/

/-- The operations a caller can apply to a plugin: the manager-only `setup`, the
three lifecycle hooks, the accessors, and `updateDescription`.  `initializeCall`
is a call of `Plugin::initialize`. -/
inductive Op (Msg PSet NH : Type) where
  | setup (nh : NH) (params : PSet)
  | loadParams (params : PSet)
  | initializeCall (params : PSet)
  | postInitialize (params : PSet)
  | getDescription
  | getName
  | getTypeClass
  | getTypeClassPackage
  | getBaseClassPackage
  | getBaseClass
  | getParams
  | updateDescription (description : PluginDescription Msg)

/-- The plugin state after one operation.  The five accessors that are plain
reads return a value and leave the object as it is. -/
def Op.step (E : Externals Msg PSet NH) (self : Plugin Msg PSet NH) :
    Op Msg PSet NH → Plugin Msg PSet NH
  | .setup nh params => (self.setup nh params).2
  | .loadParams params => (self.loadParams params).2
  | .initializeCall params => ( Plugin.initialize self params).2
  | .postInitialize params => (self.postInitialize params).2
  | .getDescription => (self.getDescription E).2
  | .getName => self
  | .getTypeClass => (self.getTypeClass E).2
  | .getTypeClassPackage => self
  | .getBaseClassPackage => self
  | .getBaseClass => self
  | .getParams => self
  | .updateDescription description => self.updateDescription E description

/-- The plugin state after a sequence of operations, first to last. -/
def run (E : Externals Msg PSet NH) (self : Plugin Msg PSet NH)
    (ops : List (Op Msg PSet NH)) : Plugin Msg PSet NH :=
  ops.foldl (Op.step E) self

/-- The three lifecycle hooks with a default body in plugin.h; `initializeCall`
is a call of `Plugin::initialize`. -/
inductive Hook (PSet : Type) where
  | loadParams (params : PSet)
  | initializeCall (params : PSet)
  | postInitialize (params : PSet)

/-- One call of a default hook: its return value and the state it leaves. -/
def Hook.call (self : Plugin Msg PSet NH) : Hook PSet → Bool × Plugin Msg PSet NH
  | .loadParams params => self.loadParams params
  | .initializeCall params => Plugin.initialize self params
  | .postInitialize params => self.postInitialize params

/-- A sequence of default hook calls, first to last: the return values in call
order and the final state. -/
def runHooks (self : Plugin Msg PSet NH) :
    List (Hook PSet) → List Bool × Plugin Msg PSet NH
  | [] => ([], self)
  | h :: hs =>
    let r := h.call self
    let rest := runHooks r.2 hs
    (r.1 :: rest.1, rest.2)

/-! ## Concrete instances used to evaluate the definitions -/

/-- A sample `abi::__cxa_demangle`: it knows three mangled names and reports
status -2 (not a valid mangled name) for everything else. -/
def sampleCxa (name : String) : CxaResult :=
  if name = "N5vigir15LeftFootPlannerE" then { status := 0, buf := "vigir::LeftFootPlanner" }
  else if name = "N5vigir13CustomPlannerE" then { status := 0, buf := "vigir::CustomPlanner" }
  else if name = "N15vigir_pluginlib6PluginE" then { status := 0, buf := "vigir_pluginlib::Plugin" }
  else { status := -2, buf := "" }

/-- Sample surroundings: a GNU build, parameter-set messages and parameter sets
both given as key/value lists, node handles given by their namespace. -/
def sampleExt : Externals (List (String × String)) (List (String × String)) String :=
  { compiler := .gnug sampleCxa
    typeidPlugin := "N15vigir_pluginlib6PluginE"
    msgDefault := []
    paramsDefault := []
    paramsOfMsg := fun m => m
    nhDefault := "/" }

/-- The class `vigir::LeftFootPlanner`, which inherits `Plugin::_typeClass`. -/
def leftFootPlanner : ClassInfo :=
  { typeidName := "N5vigir15LeftFootPlannerE", ownTypeClass := none }

/-- The plugin of the spec's example, just after construction. -/
def samplePlugin : Plugin (List (String × String)) (List (String × String)) String :=
  Plugin.construct sampleExt leftFootPlanner "left_foot_planner" "" "" "FootstepPlanner"

/-- A description handed to `updateDescription` with a type class of its own. -/
def otherDescription : PluginDescription (List (String × String)) :=
  { name := "right_foot_planner", type_class := "vigir::RightFootPlanner",
    type_class_package := "vigir_footstep_planning", base_class_package := "vigir_pluginlib",
    base_class := "FootstepPlanner", params := [("step_length", "0.25")] }

/-- A description handed to `updateDescription` with an empty type class. -/
def untypedDescription : PluginDescription (List (String × String)) :=
  { name := "right_foot_planner", type_class := "",
    type_class_package := "vigir_footstep_planning", base_class_package := "vigir_pluginlib",
    base_class := "FootstepPlanner", params := [("step_length", "0.25")] }

theorem demangle_gnug (cxa : String → CxaResult) (name : String) :
    demangle (.gnug cxa) name = if (cxa name).status = 0 then (cxa name).buf else name := rfl

theorem demangle_other (name : String) : demangle .other name = name := rfl

theorem typeClass_of_object (E : Externals Msg PSet NH) (T : String)
    (o : Plugin Msg PSet NH) :
    Plugin._typeClass E T (some o) = demangle E.compiler o.dynClass.typeidName := rfl

theorem updateDescription_eq (E : Externals Msg PSet NH) (s : Plugin Msg PSet NH)
    (d : PluginDescription Msg) :
    s.updateDescription E d =
      { dynClass := s.dynClass, nh_ := s.nh_, params_ := E.paramsOfMsg d.params,
        description_ := d } := rfl

theorem getTypeClass_of_empty (E : Externals Msg PSet NH) (s : Plugin Msg PSet NH)
    (h : s.description_.type_class = "") :
    s.getTypeClass E =
      (demangle E.compiler s.dynClass.typeidName,
       { dynClass := s.dynClass, nh_ := s.nh_,
         params_ := E.paramsOfMsg s.description_.params,
         description_ :=
           { s.description_ with type_class := demangle E.compiler s.dynClass.typeidName } }) := by
  simp [Plugin.getTypeClass, h, updateDescription_eq, typeClass_of_object]

theorem getTypeClass_of_nonempty (E : Externals Msg PSet NH) (s : Plugin Msg PSet NH)
    (h : s.description_.type_class ≠ "") :
    s.getTypeClass E = (s.description_.type_class, s) := by
  simp [Plugin.getTypeClass, h]

theorem getDescription_of_empty (E : Externals Msg PSet NH) (s : Plugin Msg PSet NH)
    (h : s.description_.type_class = "") :
    s.getDescription E =
      ({ s.description_ with type_class := demangle E.compiler s.dynClass.typeidName },
       { dynClass := s.dynClass, nh_ := s.nh_,
         params_ := E.paramsOfMsg s.description_.params,
         description_ :=
           { s.description_ with type_class := demangle E.compiler s.dynClass.typeidName } }) := by
  simp [Plugin.getDescription, h, updateDescription_eq, typeClass_of_object]

theorem getDescription_of_nonempty (E : Externals Msg PSet NH) (s : Plugin Msg PSet NH)
    (h : s.description_.type_class ≠ "") :
    s.getDescription E = (s.description_, s) := by
  simp [Plugin.getDescription, h]

/-- Both lazily completing accessors leave the object in the same state. -/
theorem getDescription_state_eq (E : Externals Msg PSet NH) (s : Plugin Msg PSet NH) :
    (s.getDescription E).2 = (s.getTypeClass E).2 := by
  by_cases h : s.description_.type_class = ""
  · rw [getDescription_of_empty E s h, getTypeClass_of_empty E s h]
  · rw [getDescription_of_nonempty E s h, getTypeClass_of_nonempty E s h]

/-- A second call of `getTypeClass` changes nothing and returns the same string. -/
theorem getTypeClass_twice (E : Externals Msg PSet NH) (s : Plugin Msg PSet NH) :
    (s.getTypeClass E).2.getTypeClass E = ((s.getTypeClass E).1, (s.getTypeClass E).2) := by
  by_cases h : s.description_.type_class = ""
  · rw [getTypeClass_of_empty E s h]
    by_cases hd : demangle E.compiler s.dynClass.typeidName = ""
    · rw [getTypeClass_of_empty E _ hd]
    · rw [getTypeClass_of_nonempty E _ hd]
  · rw [getTypeClass_of_nonempty E s h, getTypeClass_of_nonempty E s h]

/-- One operation keeps a non-empty type_class, unless it is an
`updateDescription` that brings another one. -/
theorem step_type_class (E : Externals Msg PSet NH) (s : Plugin Msg PSet NH)
    (op : Op Msg PSet NH) (hne : s.description_.type_class ≠ "")
    (hop : ∀ d, op = Op.updateDescription d → d.type_class = s.description_.type_class) :
    (Op.step E s op).description_.type_class = s.description_.type_class := by
  cases op
  case updateDescription d => simpa [Op.step, updateDescription_eq] using hop d rfl
  case getDescription => simp [Op.step, getDescription_of_nonempty E s hne]
  case getTypeClass => simp [Op.step, getTypeClass_of_nonempty E s hne]
  all_goals rfl

/-- A sequence of operations keeps a non-empty type_class, as long as every
`updateDescription` in it brings that same type_class. -/
theorem run_type_class (E : Externals Msg PSet NH) (ops : List (Op Msg PSet NH)) :
    ∀ (s : Plugin Msg PSet NH), s.description_.type_class ≠ "" →
      (∀ d, Op.updateDescription d ∈ ops → d.type_class = s.description_.type_class) →
      (run E s ops).description_.type_class = s.description_.type_class := by
  induction ops with
  | nil => intro s _ _; rfl
  | cons op rest ih =>
    intro s hne hupd
    have hstep : (Op.step E s op).description_.type_class = s.description_.type_class :=
      step_type_class E s op hne (fun d hd => hupd d (by simp [hd]))
    have hrun : run E s (op :: rest) = run E (Op.step E s op) rest := rfl
    rw [hrun, ih (Op.step E s op) (by rw [hstep]; exact hne)
      (fun d hd => by rw [hstep]; exact hupd d (List.mem_cons_of_mem _ hd)), hstep]

/-- A sequence of default hooks returns one `true` per call and leaves the state. -/
theorem runHooks_eq (hooks : List (Hook PSet)) :
    ∀ (s : Plugin Msg PSet NH), runHooks s hooks = (List.replicate hooks.length true, s) := by
  induction hooks with
  | nil => intro s; rfl
  | cons h hs ih =>
    intro s
    have hc : h.call s = (true, s) := by cases h <;> rfl
    simp [runHooks, hc, ih, List.replicate_succ]

/-! ## The claims -/

/-- C1 (the code at the failing input): the plugin constructed with name
"left_foot_planner", type class package "vigir_footstep_planning", base class
package "vigir_pluginlib" and base class "FootstepPlanner" answers the empty
string from getName, getTypeClassPackage, getBaseClassPackage and getBaseClass:
the constructor fills a local description and never stores it. -/
theorem C1_constructor_drops_description :
    (Plugin.construct sampleExt leftFootPlanner "left_foot_planner"
        "vigir_footstep_planning" "vigir_pluginlib" "FootstepPlanner").getName = "" ∧
    (Plugin.construct sampleExt leftFootPlanner "left_foot_planner"
        "vigir_footstep_planning" "vigir_pluginlib" "FootstepPlanner").getTypeClassPackage = "" ∧
    (Plugin.construct sampleExt leftFootPlanner "left_foot_planner"
        "vigir_footstep_planning" "vigir_pluginlib" "FootstepPlanner").getBaseClassPackage = "" ∧
    (Plugin.construct sampleExt leftFootPlanner "left_foot_planner"
        "vigir_footstep_planning" "vigir_pluginlib" "FootstepPlanner").getBaseClass = "" ∧
    (Plugin.construct sampleExt leftFootPlanner "left_foot_planner"
        "vigir_footstep_planning" "vigir_pluginlib" "FootstepPlanner").getName
      ≠ "left_foot_planner" := by
  decide

/-- C3: getTypeClass is idempotent.  On a platform where the demangled name of the
plugin's dynamic type is not empty, two consecutive calls return the same
non-empty string, and the state after the second call is the state after the
first. -/
theorem C3_getTypeClass_idempotent (E : Externals Msg PSet NH) (s : Plugin Msg PSet NH)
    (hname : demangle E.compiler s.dynClass.typeidName ≠ "") :
    ((s.getTypeClass E).2.getTypeClass E).1 = (s.getTypeClass E).1 ∧
    (s.getTypeClass E).1 ≠ "" ∧
    ((s.getTypeClass E).2.getTypeClass E).2 = (s.getTypeClass E).2 := by
  rw [getTypeClass_twice]
  refine ⟨rfl, ?_, rfl⟩
  by_cases h : s.description_.type_class = ""
  · rw [getTypeClass_of_empty E s h]
    exact hname
  · rw [getTypeClass_of_nonempty E s h]
    exact h

/-- C3 (witness): the spec's example plugin on the sample platform. -/
theorem C3_getTypeClass_idempotent_witness :
    demangle sampleExt.compiler samplePlugin.dynClass.typeidName ≠ "" ∧
    ((samplePlugin.getTypeClass sampleExt).2.getTypeClass sampleExt).1
      = (samplePlugin.getTypeClass sampleExt).1 ∧
    (samplePlugin.getTypeClass sampleExt).1 ≠ "" ∧
    ((samplePlugin.getTypeClass sampleExt).2.getTypeClass sampleExt).2
      = (samplePlugin.getTypeClass sampleExt).2 :=
  ⟨by decide, C3_getTypeClass_idempotent sampleExt samplePlugin (by decide)⟩

/-- C4 (counterexample): the example plugin has the non-empty type_class
"vigir::LeftFootPlanner" after getTypeClass; one updateDescription with a
description of type_class "vigir::RightFootPlanner" changes it. -/
theorem C4_counterexample :
    (samplePlugin.getTypeClass sampleExt).2.description_.type_class
      = "vigir::LeftFootPlanner" ∧
    (run sampleExt (samplePlugin.getTypeClass sampleExt).2
        [Op.updateDescription otherDescription]).description_.type_class
      = "vigir::RightFootPlanner" ∧
    (run sampleExt (samplePlugin.getTypeClass sampleExt).2
        [Op.updateDescription otherDescription]).description_.type_class
      ≠ (samplePlugin.getTypeClass sampleExt).2.description_.type_class := by
  decide

/-- C4 (amended): type_class stability.  From a state whose type_class is
non-empty, after every prefix of every sequence of setup, loadParams,
initialize, postInitialize, the accessors, and updateDescription with
descriptions that carry this same type_class, the type_class is unchanged. -/
theorem C4_type_class_stable (E : Externals Msg PSet NH) (s : Plugin Msg PSet NH)
    (ops : List (Op Msg PSet NH)) (n : Nat)
    (hne : s.description_.type_class ≠ "")
    (hupd : ∀ d, Op.updateDescription d ∈ ops →
      d.type_class = s.description_.type_class) :
    (run E s (ops.take n)).description_.type_class = s.description_.type_class :=
  run_type_class E (ops.take n) s hne
    (fun d hd => hupd d (List.mem_of_mem_take hd))

/-- C4 (witness): the example plugin after getTypeClass, driven through setup, the
three hooks, the accessors and an updateDescription that keeps the type_class. -/
theorem C4_type_class_stable_witness :
    (samplePlugin.getTypeClass sampleExt).2.description_.type_class ≠ "" ∧
    (run sampleExt (samplePlugin.getTypeClass sampleExt).2
        ([Op.setup "/planner" [], Op.loadParams [], Op.initializeCall [],
          Op.updateDescription
            { otherDescription with type_class := "vigir::LeftFootPlanner" },
          Op.postInitialize [], Op.getDescription, Op.getName,
          Op.getTypeClass].take 8)).description_.type_class
      = (samplePlugin.getTypeClass sampleExt).2.description_.type_class :=
  ⟨by decide,
   C4_type_class_stable sampleExt (samplePlugin.getTypeClass sampleExt).2 _ 8 (by decide)
     (by
       intro d hd
       simp only [List.mem_cons, List.mem_singleton, List.not_mem_nil, or_false,
         reduceCtorEq, false_or, Op.updateDescription.injEq] at hd
       subst hd
       decide)⟩

/-- C5 (counterexample): after updateDescription with a description whose
type_class is empty, getDescription returns a record whose type_class is
"vigir::LeftFootPlanner", which is not a value of that description. -/
theorem C5_counterexample :
    untypedDescription.type_class = "" ∧
    ((samplePlugin.updateDescription sampleExt untypedDescription).getDescription
        sampleExt).1.type_class = "vigir::LeftFootPlanner" ∧
    ((samplePlugin.updateDescription sampleExt untypedDescription).getDescription
        sampleExt).1.type_class ≠ untypedDescription.type_class := by
  decide

/-- C5 (amended): after updateDescription(d) the stored Description is d, the
ParameterScope is the parameter set built from d.params, and getName,
getTypeClassPackage, getBaseClassPackage, getBaseClass and getParams return the
values of d; getDescription returns d when d.type_class is non-empty, and
otherwise d with type_class lazily completed from the dynamic type.  Nothing
read comes from the description or parameters held before. -/
theorem C5_updateDescription_replaces (E : Externals Msg PSet NH)
    (s : Plugin Msg PSet NH) (d : PluginDescription Msg) :
    (s.updateDescription E d).description_ = d ∧
    (s.updateDescription E d).params_ = E.paramsOfMsg d.params ∧
    (s.updateDescription E d).getName = d.name ∧
    (s.updateDescription E d).getTypeClassPackage = d.type_class_package ∧
    (s.updateDescription E d).getBaseClassPackage = d.base_class_package ∧
    (s.updateDescription E d).getBaseClass = d.base_class ∧
    (s.updateDescription E d).getParams = E.paramsOfMsg d.params ∧
    ((s.updateDescription E d).getDescription E).1 =
      (if d.type_class = "" then
        { d with type_class := demangle E.compiler s.dynClass.typeidName }
       else d) := by
  refine ⟨rfl, rfl, rfl, rfl, rfl, rfl, rfl, ?_⟩
  by_cases h : d.type_class = ""
  · rw [getDescription_of_empty E _ (by simpa [updateDescription_eq] using h), if_pos h]
    rfl
  · rw [getDescription_of_nonempty E _ (by simpa [updateDescription_eq] using h), if_neg h]
    rfl

/-- C7: the base setup returns true, binds the node handle to the one given,
leaves the Description, the ParameterScope and the dynamic type unchanged, and
does not depend on the parameter set argument. -/
theorem C7_setup (s : Plugin Msg PSet NH) (nh : NH) (params params2 : PSet) :
    (s.setup nh params).1 = true ∧
    (s.setup nh params).2.nh_ = nh ∧
    (s.setup nh params).2.description_ = s.description_ ∧
    (s.setup nh params).2.params_ = s.params_ ∧
    (s.setup nh params).2.dynClass = s.dynClass ∧
    s.setup nh params = s.setup nh params2 :=
  ⟨rfl, rfl, rfl, rfl, rfl, rfl⟩

/-- C8: the default loadParams, initialize and postInitialize each return true
and leave the plugin state unchanged; any sequence of them, in any order and of
any length, returns true on every call and ends in the state it started from. -/
theorem C8_default_hooks (s : Plugin Msg PSet NH) (params : PSet)
    (hooks : List (Hook PSet)) :
    s.loadParams params = (true, s) ∧
    Plugin.initialize s params = (true, s) ∧
    s.postInitialize params = (true, s) ∧
    (runHooks s hooks).2 = s ∧
    (runHooks s hooks).1.length = hooks.length ∧
    (∀ b ∈ (runHooks s hooks).1, b = true) := by
  rw [runHooks_eq hooks s]
  refine ⟨rfl, rfl, rfl, rfl, by simp, ?_⟩
  intro b hb
  exact (List.mem_replicate.mp hb).2

/-- C9: demangle always returns a string.  With a demangler, status 0 gives the
demangled buffer and any other status gives the raw name unchanged; without a
demangler the raw name is returned unchanged. -/
theorem C9_demangle (cxa : String → CxaResult) (name : String) :
    ((cxa name).status = 0 → demangle (.gnug cxa) name = (cxa name).buf) ∧
    ((cxa name).status ≠ 0 → demangle (.gnug cxa) name = name) ∧
    demangle .other name = name := by
  refine ⟨fun h => ?_, fun h => ?_, rfl⟩
  · rw [demangle_gnug, if_pos h]
  · rw [demangle_gnug, if_neg h]

/-- C9 (witness): a name the sample demangler knows, and one it rejects. -/
theorem C9_demangle_witness :
    (sampleCxa "N5vigir15LeftFootPlannerE").status = 0 ∧
    demangle (.gnug sampleCxa) "N5vigir15LeftFootPlannerE"
      = (sampleCxa "N5vigir15LeftFootPlannerE").buf ∧
    (sampleCxa "not_a_mangled_name").status ≠ 0 ∧
    demangle (.gnug sampleCxa) "not_a_mangled_name" = "not_a_mangled_name" ∧
    demangle .other "N5vigir15LeftFootPlannerE" = "N5vigir15LeftFootPlannerE" :=
  ⟨by decide,
   (C9_demangle sampleCxa "N5vigir15LeftFootPlannerE").1 (by decide),
   by decide,
   (C9_demangle sampleCxa "not_a_mangled_name").2.1 (by decide),
   (C9_demangle sampleCxa "N5vigir15LeftFootPlannerE").2.2⟩

/-- C10: on a state whose type_class is empty, getDescription and getTypeClass
leave name, type_class_package, base_class_package, base_class and params of the
Description as they were, set type_class to the demangled dynamic type name,
leave the node handle alone, leave the ParameterScope equal to the parameter set
built from the params of the Description, and both end in the same state. -/
theorem C10_lazy_resolution_frame (E : Externals Msg PSet NH) (s : Plugin Msg PSet NH)
    (h : s.description_.type_class = "") :
    ((s.getDescription E).2.description_.name = s.description_.name ∧
     (s.getDescription E).2.description_.type_class_package
       = s.description_.type_class_package ∧
     (s.getDescription E).2.description_.base_class_package
       = s.description_.base_class_package ∧
     (s.getDescription E).2.description_.base_class = s.description_.base_class ∧
     (s.getDescription E).2.description_.params = s.description_.params ∧
     (s.getDescription E).2.params_
       = E.paramsOfMsg (s.getDescription E).2.description_.params) ∧
    ((s.getTypeClass E).2.description_.name = s.description_.name ∧
     (s.getTypeClass E).2.description_.type_class_package
       = s.description_.type_class_package ∧
     (s.getTypeClass E).2.description_.base_class_package
       = s.description_.base_class_package ∧
     (s.getTypeClass E).2.description_.base_class = s.description_.base_class ∧
     (s.getTypeClass E).2.description_.params = s.description_.params ∧
     (s.getTypeClass E).2.params_
       = E.paramsOfMsg (s.getTypeClass E).2.description_.params) ∧
    (s.getDescription E).2.description_.type_class
      = demangle E.compiler s.dynClass.typeidName ∧
    (s.getDescription E).2.nh_ = s.nh_ ∧
    (s.getDescription E).2 = (s.getTypeClass E).2 := by
  rw [getDescription_of_empty E s h, getTypeClass_of_empty E s h]
  exact ⟨⟨rfl, rfl, rfl, rfl, rfl, rfl⟩, ⟨rfl, rfl, rfl, rfl, rfl, rfl⟩, rfl, rfl, rfl⟩

/-- C10 (witness): the freshly constructed example plugin, whose type_class is
empty. -/
theorem C10_lazy_resolution_frame_witness :
    samplePlugin.description_.type_class = "" ∧
    (samplePlugin.getDescription sampleExt).2.description_.name
      = samplePlugin.description_.name ∧
    (samplePlugin.getDescription sampleExt).2.params_
      = sampleExt.paramsOfMsg (samplePlugin.getDescription sampleExt).2.description_.params ∧
    (samplePlugin.getDescription sampleExt).2 = (samplePlugin.getTypeClass sampleExt).2 :=
  have h := C10_lazy_resolution_frame sampleExt samplePlugin rfl
  ⟨rfl, h.1.1, h.1.2.2.2.2.2, h.2.2.2.2⟩

end vigir_pluginlib
